import Mathlib

/-!
Shallow embedding of `src/mainloop.rs` of the `thin_main_loop` crate.

The file models the main-loop façade: the `MainLoop` struct (a `terminated`
flag plus an owned backend), the thread-local `current_loop` registry, the
`with_current_loop` wrapper (reentrancy check, registration, unwind-safe
cleanup), `run`, `run_one`, the registration family `call_asap` /
`call_after` / `call_interval`, and the ambient free functions
`call_internal` and `terminate`.

The backend is an external collaborator (its implementations live outside
the specified core); it is modelled as a log machine driven by an oracle:
`push` appends the registered callback kind to a log and returns the result
the oracle dictates, and each `run_one(blocking)` iteration appends the
blocking flag to an iteration log while the oracle dictates which ambient
effects the callbacks executed in that iteration perform (requesting
termination, registering further callbacks, unwinding).

Unwinding is modelled with `Option Panic` result components, and the
(possible) divergence of `run` with an `Option` over the whole result:
`none` means the call never returns within the given fuel.
-/

namespace ThinMainLoop

/-- Modelled from the spec: the error type of the crate (declared outside
`src/mainloop.rs`). `NoMainLoop` is the "no active loop" error returned by
an ambient submission; `BackendRejected` stands for any error a backend
registration may surface verbatim. -/
inductive MainLoopError where
  | NoMainLoop
  | BackendRejected
deriving DecidableEq

/-- Modelled from the spec: the opaque, backend-assigned callback
identifier returned on successful registration. -/
def CbId := Nat

instance : DecidableEq CbId := fun a b => Nat.decEq a b

/-- Modelled from the spec: the callback-kind taxonomy (declared outside
`src/mainloop.rs`): run once as soon as possible, run once after a delay,
or run repeatedly with a period. The work closure is kept abstract as a
value of type `W`; durations are abstract numbers. -/
inductive CbKind (W : Type) where
  | asap (f : W)
  | after (f : W) (d : Nat)
  | interval (f : W) (d : Nat)

/-- Oracle abstracting a backend implementation together with the behaviour
of the client callbacks it executes. `pushResult n` is the result the
backend returns for the n-th `push` call. During the n-th `run_one`
iteration of this backend, the executed callbacks request termination of
the ambient loop iff `iterQuits n`, register the list `iterPushes n` of
further callbacks, and unwind iff `iterPanics n`. -/
structure BackendOracle (W : Type) where
  pushResult : Nat → Except MainLoopError CbId
  iterQuits : Nat → Bool
  iterPanics : Nat → Bool
  iterPushes : Nat → List (CbKind W)

/-- A backend: its oracle plus the observable history — the log of callback
kinds handed to `push` and the log of `run_one` calls (their blocking
flags, in order). -/
structure Backend (W : Type) where
  oracle : BackendOracle W
  pushed : List (CbKind W)
  iters : List Bool

/-- The `MainLoop` struct: a termination flag and an owned backend. -/
structure MainLoop (W : Type) where
  terminated : Bool
  backend : Backend W

/-- An unwind in progress: either the fatal reentrancy fault raised by
`with_current_loop`, or an unwind escaping the n-th backend iteration. -/
inductive Panic where
  | reentrant
  | iteration (n : Nat)
deriving DecidableEq

/-- The per-thread state: a store of loops (indexed by an identifier, the
embedding of a loop's address) and the thread-local `current_loop` cell
holding the identifier of the loop currently registered, if any. -/
@[ext]
structure Thread (W : Type) where
  loops : Nat → MainLoop W
  current_loop : Option Nat

/-- Backend registration: `push` logs the callback kind and returns the
oracle-dictated result for this (the `pushed.length`-th) push. -/
def Backend.push {W : Type} (b : Backend W) (cb : CbKind W) :
    Backend W × Except MainLoopError CbId :=
  ({ b with pushed := b.pushed ++ [cb] }, b.oracle.pushResult b.pushed.length)

/-- The `quit` method: sets the termination flag. -/
def MainLoop.quit {W : Type} (ml : MainLoop W) : MainLoop W :=
  { ml with terminated := true }

/-- The `call_asap` method: pushes an `asap` kind to the owned backend. -/
def MainLoop.call_asap {W : Type} (ml : MainLoop W) (f : W) :
    MainLoop W × Except MainLoopError CbId :=
  let r := ml.backend.push (CbKind.asap f)
  ({ ml with backend := r.1 }, r.2)

/-- The `call_after` method: pushes an `after` kind to the owned backend. -/
def MainLoop.call_after {W : Type} (ml : MainLoop W) (d : Nat) (f : W) :
    MainLoop W × Except MainLoopError CbId :=
  let r := ml.backend.push (CbKind.after f d)
  ({ ml with backend := r.1 }, r.2)

/-- The `call_interval` method: pushes an `interval` kind to the owned
backend. -/
def MainLoop.call_interval {W : Type} (ml : MainLoop W) (d : Nat) (f : W) :
    MainLoop W × Except MainLoopError CbId :=
  let r := ml.backend.push (CbKind.interval f d)
  ({ ml with backend := r.1 }, r.2)

/-- One `backend.run_one(blocking)` iteration, as observable through the
loop that owns the backend: the blocking flag is logged, the callbacks the
oracle says ran in this iteration may set the termination flag (via the
ambient `terminate`, which resolves to this loop while it is registered)
and may push further callbacks; the iteration unwinds iff the oracle says
so. -/
def backendIter {W : Type} (blocking : Bool) (ml : MainLoop W) :
    MainLoop W × Option Panic :=
  let n := ml.backend.iters.length
  ({ terminated := ml.terminated || ml.backend.oracle.iterQuits n,
     backend := { ml.backend with
       iters := ml.backend.iters ++ [blocking],
       pushed := ml.backend.pushed ++ ml.backend.oracle.iterPushes n } },
   if ml.backend.oracle.iterPanics n then some (Panic.iteration n) else none)

/-- The body of `run`: `while !self.terminated.get() { self.backend.run_one(true) }`,
with fuel bounding the number of iterations modelled; `none` means the loop
has not exited within the fuel. -/
def runBody {W : Type} : Nat → MainLoop W → Option (MainLoop W × Option Panic)
  | 0, ml => if ml.terminated then some (ml, none) else none
  | Nat.succ fuel, ml =>
    if ml.terminated then some (ml, none)
    else
      let r := backendIter true ml
      match r.2 with
      | some p => some (r.1, some p)
      | none => runBody fuel r.1

/-- The body of `run_one`: `if !self.terminated.get() { self.backend.run_one(false) }`. -/
def run_one_body {W : Type} (ml : MainLoop W) : MainLoop W × Option Panic :=
  if ml.terminated then (ml, none) else backendIter false ml

/-- Pointwise update of the loop store at one identifier. -/
def updateLoop {W : Type} (ls : Nat → MainLoop W) (i : Nat) (ml : MainLoop W) :
    Nat → MainLoop W :=
  fun k => if k = i then ml else ls k

/-- Replace the loop stored at identifier `i`. -/
def setLoop {W : Type} (st : Thread W) (i : Nat) (ml : MainLoop W) : Thread W :=
  { st with loops := updateLoop st.loops i ml }

/-- The `with_current_loop` wrapper of loop `i`, faithful to the source:
return at once if the loop is terminated; otherwise raise the fatal
reentrancy fault if any loop is already registered in `current_loop`
(leaving the registry untouched); otherwise register loop `i`, run the
body (catching its unwind), unconditionally clear the registry, and
re-raise the caught unwind if any. A `none` result means the body never
returned. -/
def with_current_loop {W : Type} (i : Nat)
    (body : MainLoop W → Option (MainLoop W × Option Panic))
    (st : Thread W) : Option (Thread W × Option Panic) :=
  if (st.loops i).terminated then some (st, none)
  else
    match st.current_loop with
    | some _ => some (st, some Panic.reentrant)
    | none =>
      (body (st.loops i)).map fun r =>
        ({ loops := updateLoop st.loops i r.1, current_loop := none }, r.2)

/-- The `run` method of loop `i`, with fuel for the iteration count. -/
def MainLoop.run {W : Type} (i : Nat) (fuel : Nat) (st : Thread W) :
    Option (Thread W × Option Panic) :=
  with_current_loop i (runBody fuel) st

/-- The `run_one` method of loop `i`. -/
def MainLoop.run_one {W : Type} (i : Nat) (st : Thread W) :
    Option (Thread W × Option Panic) :=
  with_current_loop i (fun ml => some (run_one_body ml)) st

/-- The ambient submission function `call_internal`: look up the
thread-local registry; with no registered loop, fail with `NoMainLoop`;
otherwise forward the registration to the registered loop's backend and
return its result. -/
def call_internal {W : Type} (cb : CbKind W) (st : Thread W) :
    Thread W × Except MainLoopError CbId :=
  match st.current_loop with
  | none => (st, Except.error MainLoopError.NoMainLoop)
  | some j =>
    let r := (st.loops j).backend.push cb
    (setLoop st j { st.loops j with backend := r.1 }, r.2)

/-- The ambient `terminate` function: look up the thread-local registry;
with a registered loop, call its `quit`; otherwise do nothing. -/
def terminate {W : Type} (st : Thread W) : Thread W :=
  match st.current_loop with
  | none => st
  | some j => setLoop st j (MainLoop.quit (st.loops j))

/-- The façade operations a client may direct at one loop, for stating
flag-monotonicity over arbitrary operation sequences. -/
inductive Op (W : Type) where
  | quit
  | call_asap (f : W)
  | call_after (d : Nat) (f : W)
  | call_interval (d : Nat) (f : W)
  | run (fuel : Nat)
  | run_one

/-- Apply one façade operation to loop `i`; `none` when a `run` diverges. -/
def applyOp {W : Type} (i : Nat) (op : Op W) (st : Thread W) : Option (Thread W) :=
  match op with
  | Op.quit => some (setLoop st i (MainLoop.quit (st.loops i)))
  | Op.call_asap f => some (setLoop st i (MainLoop.call_asap (st.loops i) f).1)
  | Op.call_after d f => some (setLoop st i (MainLoop.call_after (st.loops i) d f).1)
  | Op.call_interval d f => some (setLoop st i (MainLoop.call_interval (st.loops i) d f).1)
  | Op.run fuel => (MainLoop.run i fuel st).map Prod.fst
  | Op.run_one => (MainLoop.run_one i st).map Prod.fst

/-- Apply a sequence of façade operations to loop `i`, left to right. -/
def applyOps {W : Type} (i : Nat) : List (Op W) → Thread W → Option (Thread W)
  | [], st => some st
  | op :: ops, st =>
    match applyOp i op st with
    | none => none
    | some st1 => applyOps i ops st1

/-- The value of the termination flag of `ml` as observed at the boundary
after `m` further backend iterations: initially `ml.terminated`, and each
iteration contributes the oracle-dictated quit request of its callbacks. -/
def flagAfter {W : Type} (ml : MainLoop W) : Nat → Bool
  | 0 => ml.terminated
  | Nat.succ m =>
    flagAfter ml m || ml.backend.oracle.iterQuits (ml.backend.iters.length + m)

/-! Concrete fixtures used by the witness theorems. The demo oracle has
the callbacks of the first backend iteration request termination, no
iteration unwind, and every push accepted with the push index as the
identifier. -/

/-- Demo oracle for witnesses: iteration 0 requests termination, nothing
unwinds, every push succeeds. -/
def demoOracle : BackendOracle Unit where
  pushResult := fun n => Except.ok n
  iterQuits := fun n => n == 0
  iterPanics := fun _ => false
  iterPushes := fun _ => []

/-- A fresh demo loop over the demo oracle. -/
def demoLoop : MainLoop Unit :=
  { terminated := false
    backend := { oracle := demoOracle, pushed := [], iters := [] } }

/-- The demo loop after one blocking iteration (its callbacks requested
termination). -/
def demoLoopDone : MainLoop Unit :=
  { terminated := true
    backend := { oracle := demoOracle, pushed := [], iters := [true] } }

/-- A thread whose registry is empty and whose every slot holds a fresh
demo loop. -/
def demoThread : Thread Unit :=
  { loops := fun _ => demoLoop, current_loop := none }

/-- A thread on which loop 1 is currently registered. -/
def demoThreadBusy : Thread Unit :=
  { loops := fun _ => demoLoop, current_loop := some 1 }

/-- A terminated demo loop. -/
def demoLoopTerm : MainLoop Unit :=
  { demoLoop with terminated := true }

/-- A thread of terminated demo loops, empty registry. -/
def demoThreadTerm : Thread Unit :=
  { loops := fun _ => demoLoopTerm, current_loop := none }

/-- A thread of terminated demo loops on which loop 7 is registered. -/
def demoThreadTermBusy : Thread Unit :=
  { loops := fun _ => demoLoopTerm, current_loop := some 7 }

/-- C1: a `run` or `run_one` call on a non-terminated loop, on a thread
whose `current_loop` registry already holds some registered loop (any
identifier, the caller's own included), raises the fatal reentrancy fault
rather than returning normally, and does so before any backend iteration:
the thread state, iteration logs included, is returned untouched. -/
theorem C1_reentrant_faults {W : Type} (i j fuel : Nat) (st : Thread W)
    (hterm : (st.loops i).terminated = false)
    (hreg : st.current_loop = some j) :
    MainLoop.run i fuel st = some (st, some Panic.reentrant) ∧
    MainLoop.run_one i st = some (st, some Panic.reentrant) := by
  constructor <;>
    simp [MainLoop.run, MainLoop.run_one, with_current_loop, hterm, hreg]

/-- Witness for C1 at a concrete thread. -/
theorem C1_reentrant_faults_witness :
    MainLoop.run 0 5 demoThreadBusy = some (demoThreadBusy, some Panic.reentrant) ∧
    MainLoop.run_one 0 demoThreadBusy = some (demoThreadBusy, some Panic.reentrant) :=
  C1_reentrant_faults 0 1 5 demoThreadBusy rfl rfl

/-- C4: on a loop whose termination flag is already set, `run` and
`run_one` return at once with the thread state untouched: no backend
iteration is logged and the `current_loop` registry is never written. -/
theorem C4_terminated_noop {W : Type} (i fuel : Nat) (st : Thread W)
    (hterm : (st.loops i).terminated = true) :
    MainLoop.run i fuel st = some (st, none) ∧
    MainLoop.run_one i st = some (st, none) := by
  constructor <;>
    simp [MainLoop.run, MainLoop.run_one, with_current_loop, hterm]

/-- Witness for C4 at a concrete thread. -/
theorem C4_terminated_noop_witness :
    MainLoop.run 0 5 demoThreadTerm = some (demoThreadTerm, none) ∧
    MainLoop.run_one 0 demoThreadTerm = some (demoThreadTerm, none) :=
  C4_terminated_noop 0 5 demoThreadTerm rfl

/-- C10: the terminated check precedes the reentrancy check: `run` and
`run_one` on an already-terminated loop return silently (no fault, state
untouched) even while another loop is registered in the thread's
`current_loop` registry. -/
theorem C10_terminated_before_reentrancy {W : Type} (i j fuel : Nat)
    (st : Thread W) (hterm : (st.loops i).terminated = true)
    (_hreg : st.current_loop = some j) :
    MainLoop.run i fuel st = some (st, none) ∧
    MainLoop.run_one i st = some (st, none) := by
  constructor <;>
    simp [MainLoop.run, MainLoop.run_one, with_current_loop, hterm]

/-- Witness for C10 at a concrete thread with an occupied registry. -/
theorem C10_terminated_before_reentrancy_witness :
    MainLoop.run 0 5 demoThreadTermBusy = some (demoThreadTermBusy, none) ∧
    MainLoop.run_one 0 demoThreadTermBusy = some (demoThreadTermBusy, none) :=
  C10_terminated_before_reentrancy 0 7 5 demoThreadTermBusy rfl rfl

/-- C7: the ambient submission `call_internal`, for every callback kind:
with no loop registered in the thread's registry it returns the
`NoMainLoop` error and registers nothing (the thread state is untouched);
with a loop registered it forwards the kind to that loop's backend (the
kind is appended to that backend's push log) and returns the backend's
result for that push verbatim. -/
theorem C7_ambient_submission {W : Type} (cb : CbKind W) (st : Thread W) :
    (st.current_loop = none →
      call_internal cb st = (st, Except.error MainLoopError.NoMainLoop)) ∧
    (∀ j, st.current_loop = some j →
      call_internal cb st =
        (setLoop st j
          { st.loops j with backend := ((st.loops j).backend.push cb).1 },
         (st.loops j).backend.oracle.pushResult
           (st.loops j).backend.pushed.length) ∧
      ((call_internal cb st).1.loops j).backend.pushed =
        (st.loops j).backend.pushed ++ [cb]) := by
  refine ⟨fun h => ?_, fun j h => ⟨?_, ?_⟩⟩ <;>
    simp [call_internal, h, Backend.push, setLoop, updateLoop]

/-- Witness for C7: both registry states at a concrete thread. -/
theorem C7_ambient_submission_witness :
    call_internal (CbKind.asap ()) demoThread =
      (demoThread, Except.error MainLoopError.NoMainLoop) ∧
    ((call_internal (CbKind.asap ()) demoThreadBusy).1.loops 1).backend.pushed =
      (demoThreadBusy.loops 1).backend.pushed ++ [CbKind.asap ()] :=
  ⟨(C7_ambient_submission (CbKind.asap ()) demoThread).1 rfl,
   ((C7_ambient_submission (CbKind.asap ()) demoThreadBusy).2 1 rfl).2⟩

/-- With a loop registered, `terminate` replaces that loop by its `quit`. -/
theorem terminate_eq {W : Type} (st : Thread W) (j : Nat)
    (h : st.current_loop = some j) :
    terminate st = setLoop st j (MainLoop.quit (st.loops j)) := by
  simp [terminate, h]

/-- C8: the ambient `terminate`: with a loop registered it sets that
loop's termination flag, idempotently (running it twice equals running it
once, just like `quit` twice equals `quit` once); with no loop registered
it does nothing at all and signals no error (it is total and returns the
thread state unchanged). -/
theorem C8_ambient_termination {W : Type} (st : Thread W) :
    (st.current_loop = none → terminate st = st) ∧
    (∀ j, st.current_loop = some j →
      terminate st = setLoop st j (MainLoop.quit (st.loops j)) ∧
      ((terminate st).loops j).terminated = true ∧
      terminate (terminate st) = terminate st) := by
  refine ⟨fun h => ?_, fun j h => ⟨?_, ?_, ?_⟩⟩
  · simp [terminate, h]
  · exact terminate_eq st j h
  · simp [terminate_eq st j h, setLoop, updateLoop, MainLoop.quit]
  · have h2 : (terminate st).current_loop = some j := by
      rw [terminate_eq st j h]; exact h
    rw [terminate_eq (terminate st) j h2, terminate_eq st j h]
    have e2 : (setLoop st j (MainLoop.quit (st.loops j))).loops j =
        MainLoop.quit (st.loops j) := by
      simp [setLoop, updateLoop]
    rw [e2]
    have e3 : MainLoop.quit (MainLoop.quit (st.loops j)) =
        MainLoop.quit (st.loops j) := rfl
    rw [e3]
    ext k
    · simp only [setLoop, updateLoop]
      by_cases hk : k = j <;> simp [hk]
    · rfl

/-- Witness for C8: both registry states at a concrete thread. -/
theorem C8_ambient_termination_witness :
    terminate demoThread = demoThread ∧
    ((terminate demoThreadBusy).loops 1).terminated = true ∧
    terminate (terminate demoThreadBusy) = terminate demoThreadBusy :=
  ⟨(C8_ambient_termination demoThread).1 rfl,
   ((C8_ambient_termination demoThreadBusy).2 1 rfl).2.1,
   ((C8_ambient_termination demoThreadBusy).2 1 rfl).2.2⟩

/-- C9: `call_asap` registers exactly an `asap` kind with the loop's own
backend, `call_after` a delayed `after` kind with the given duration, and
`call_interval` an `interval` kind with the given period; each returns the
backend's result for that push verbatim, and the resulting loop differs
from the original only in the backend's push log — the termination flag,
the iteration log (so no work was executed) and the thread registry (never
consulted: these methods read only the loop itself) are untouched. -/
theorem C9_registration_family {W : Type} (ml : MainLoop W) (f g k : W)
    (d e : Nat) :
    MainLoop.call_asap ml f =
      ({ ml with backend :=
          { ml.backend with pushed := ml.backend.pushed ++ [CbKind.asap f] } },
       ml.backend.oracle.pushResult ml.backend.pushed.length) ∧
    MainLoop.call_after ml d g =
      ({ ml with backend :=
          { ml.backend with pushed := ml.backend.pushed ++ [CbKind.after g d] } },
       ml.backend.oracle.pushResult ml.backend.pushed.length) ∧
    MainLoop.call_interval ml e k =
      ({ ml with backend :=
          { ml.backend with pushed := ml.backend.pushed ++ [CbKind.interval k e] } },
       ml.backend.oracle.pushResult ml.backend.pushed.length) :=
  ⟨rfl, rfl, rfl⟩

/-- C2: a `run` or `run_one` call that passes both entry checks (loop not
terminated, registry empty) and so registers its loop: whatever the body
does — return normally (`p = none`) or unwind (`p = some fault`) — the
call returns with the `current_loop` registry cleared and with exactly the
body's outcome `p` re-raised, never swallowed. -/
theorem C2_registry_cleared_fault_propagated {W : Type} (i fuel : Nat)
    (st : Thread W) (hterm : (st.loops i).terminated = false)
    (hreg : st.current_loop = none) :
    (∀ ml p, runBody fuel (st.loops i) = some (ml, p) →
      MainLoop.run i fuel st =
        some ({ loops := updateLoop st.loops i ml, current_loop := none }, p)) ∧
    MainLoop.run_one i st =
      some ({ loops := updateLoop st.loops i (run_one_body (st.loops i)).1,
              current_loop := none },
            (run_one_body (st.loops i)).2) := by
  constructor
  · intro ml p hbody
    simp [MainLoop.run, with_current_loop, hterm, hreg, hbody]
  · simp [MainLoop.run_one, with_current_loop, hterm, hreg]

/-- Witness for C2 at a concrete thread whose first iteration quits. -/
theorem C2_registry_cleared_fault_propagated_witness :
    MainLoop.run 0 2 demoThread =
      some ({ loops := updateLoop demoThread.loops 0 demoLoopDone,
              current_loop := none }, none) ∧
    MainLoop.run_one 0 demoThread =
      some ({ loops := updateLoop demoThread.loops 0
                (run_one_body (demoThread.loops 0)).1,
              current_loop := none },
            (run_one_body (demoThread.loops 0)).2) :=
  ⟨(C2_registry_cleared_fault_propagated 0 2 demoThread rfl rfl).1
      demoLoopDone none rfl,
   (C2_registry_cleared_fault_propagated 0 2 demoThread rfl rfl).2⟩

/-- A single backend iteration never clears a set termination flag. -/
theorem backendIter_preserves_terminated {W : Type} (b : Bool)
    (ml : MainLoop W) (hterm : ml.terminated = true) :
    ((backendIter b ml).1).terminated = true := by
  simp [backendIter, hterm]

/-- Each façade operation on loop `i` keeps a set termination flag set. -/
theorem applyOp_preserves_terminated {W : Type} (i : Nat) (op : Op W)
    (st st1 : Thread W) (hterm : (st.loops i).terminated = true)
    (h : applyOp i op st = some st1) : (st1.loops i).terminated = true := by
  cases op with
  | quit =>
    simp only [applyOp, Option.some.injEq] at h
    subst h
    simp [setLoop, updateLoop, MainLoop.quit]
  | call_asap f =>
    simp only [applyOp, Option.some.injEq] at h
    subst h
    simpa [setLoop, updateLoop, MainLoop.call_asap] using hterm
  | call_after d f =>
    simp only [applyOp, Option.some.injEq] at h
    subst h
    simpa [setLoop, updateLoop, MainLoop.call_after] using hterm
  | call_interval d f =>
    simp only [applyOp, Option.some.injEq] at h
    subst h
    simpa [setLoop, updateLoop, MainLoop.call_interval] using hterm
  | run fuel =>
    have hrun : MainLoop.run i fuel st = some (st, none) := by
      simp [MainLoop.run, with_current_loop, hterm]
    simp [applyOp, hrun] at h
    subst h
    exact hterm
  | run_one =>
    have hrun : MainLoop.run_one i st = some (st, none) := by
      simp [MainLoop.run_one, with_current_loop, hterm]
    simp [applyOp, hrun] at h
    subst h
    exact hterm

/-- A sequence of façade operations on loop `i` keeps a set flag set. -/
theorem applyOps_preserves_terminated {W : Type} (i : Nat) (ops : List (Op W)) :
    ∀ st st2 : Thread W, (st.loops i).terminated = true →
      applyOps i ops st = some st2 → (st2.loops i).terminated = true := by
  induction ops with
  | nil =>
    intro st st2 h happ
    simp only [applyOps, Option.some.injEq] at happ
    subst happ
    exact h
  | cons op ops ih =>
    intro st st2 h happ
    simp only [applyOps] at happ
    cases hop : applyOp i op st with
    | none => rw [hop] at happ; exact absurd happ (by simp)
    | some st1 =>
      rw [hop] at happ
      exact ih st1 st2 (applyOp_preserves_terminated i op st st1 h hop) happ

/-- C3: `quit` sets the termination flag, is idempotent (two `quit`s equal
one), and the flag is monotone: once a loop's flag is true, it stays true
under every sequence of `quit`, `call_asap`, `call_after`,
`call_interval`, `run` and `run_one` operations directed at that loop. -/
theorem C3_quit_idempotent_flag_monotone {W : Type} (ml : MainLoop W)
    (i : Nat) (st : Thread W) (ops : List (Op W)) (st2 : Thread W)
    (hterm : (st.loops i).terminated = true)
    (happ : applyOps i ops st = some st2) :
    (MainLoop.quit ml).terminated = true ∧
    MainLoop.quit (MainLoop.quit ml) = MainLoop.quit ml ∧
    (st2.loops i).terminated = true :=
  ⟨rfl, rfl, applyOps_preserves_terminated i ops st st2 hterm happ⟩

/-- The terminated demo thread after a client `quit` on loop 0. -/
def demoThreadTermQuit : Thread Unit :=
  setLoop demoThreadTerm 0 (MainLoop.quit (demoThreadTerm.loops 0))

/-- Witness for C3 on a concrete operation sequence. -/
theorem C3_quit_idempotent_flag_monotone_witness :
    (MainLoop.quit demoLoop).terminated = true ∧
    MainLoop.quit (MainLoop.quit demoLoop) = MainLoop.quit demoLoop ∧
    (demoThreadTermQuit.loops 0).terminated = true :=
  C3_quit_idempotent_flag_monotone demoLoop 0 demoThreadTerm
    [Op.quit, Op.run 3, Op.run_one] demoThreadTermQuit rfl rfl

/-- The flag observed `m` boundaries after one further iteration equals
the flag observed `m + 1` boundaries after the original state. -/
theorem flagAfter_iter {W : Type} (b : Bool) (ml : MainLoop W) (m : Nat) :
    flagAfter ((backendIter b ml).1) m = flagAfter ml (m + 1) := by
  induction m with
  | zero => simp [flagAfter, backendIter]
  | succ m ih =>
    have hlen : ((backendIter b ml).1).backend.iters.length =
        ml.backend.iters.length + 1 := by simp [backendIter]
    have hor : ((backendIter b ml).1).backend.oracle = ml.backend.oracle := rfl
    simp only [flagAfter, ih, hlen, hor]
    have harith : ml.backend.iters.length + 1 + m =
        ml.backend.iters.length + (m + 1) := by omega
    rw [harith]

/-- Characterization of the `run` body: a normal exit performs some number
`k` of blocking iterations, where `k` is exactly the first iteration
boundary at which the termination flag is observed set, and exits with the
flag set. -/
theorem runBody_spec {W : Type} :
    ∀ (fuel : Nat) (ml ml2 : MainLoop W),
      runBody fuel ml = some (ml2, none) →
      ∃ k, ml2.backend.iters = ml.backend.iters ++ List.replicate k true ∧
        flagAfter ml k = true ∧
        (∀ m, m < k → flagAfter ml m = false) ∧
        ml2.terminated = true := by
  intro fuel
  induction fuel with
  | zero =>
    intro ml ml2 h
    simp only [runBody] at h
    rcases Bool.eq_false_or_eq_true ml.terminated with ht | ht
    · rw [if_pos ht] at h
      simp only [Option.some.injEq, Prod.mk.injEq] at h
      obtain ⟨h1, -⟩ := h
      subst h1
      refine ⟨0, by simp, ?_, ?_, ht⟩
      · simpa [flagAfter] using ht
      · intro m hm; exact absurd hm (Nat.not_lt_zero m)
    · rw [if_neg (by simp [ht])] at h
      exact absurd h (by simp)
  | succ fuel ih =>
    intro ml ml2 h
    simp only [runBody] at h
    rcases Bool.eq_false_or_eq_true ml.terminated with ht | ht
    · rw [if_pos ht] at h
      simp only [Option.some.injEq, Prod.mk.injEq] at h
      obtain ⟨h1, -⟩ := h
      subst h1
      refine ⟨0, by simp, ?_, ?_, ht⟩
      · simpa [flagAfter] using ht
      · intro m hm; exact absurd hm (Nat.not_lt_zero m)
    · rw [if_neg (by simp [ht])] at h
      cases hp : (backendIter true ml).2 with
      | some p => rw [hp] at h; simp at h
      | none =>
        rw [hp] at h
        obtain ⟨k, hiters, hflag, hmin, hterm2⟩ :=
          ih ((backendIter true ml).1) ml2 h
        refine ⟨k + 1, ?_, ?_, ?_, hterm2⟩
        · rw [hiters]
          simp [backendIter, List.replicate_succ, List.append_assoc]
        · rw [← flagAfter_iter true ml k]; exact hflag
        · intro m hm
          cases m with
          | zero => simpa [flagAfter] using ht
          | succ m =>
            rw [← flagAfter_iter true ml m]
            exact hmin m (by omega)

/-- C5: whenever `run` returns normally (no fault), it has performed some
number `k` of backend iterations, every one of them blocking, `k` being
exactly the first iteration boundary at which the termination flag is
observed set (the flag is false at every earlier boundary, so iterations
stop as soon as the flag is seen, and the flag is only consulted between
whole iterations), and the loop is terminated on return. -/
theorem C5_run_blocks_until_flag {W : Type} (i fuel : Nat)
    (st st2 : Thread W)
    (h : MainLoop.run i fuel st = some (st2, none)) :
    ∃ k, (st2.loops i).backend.iters =
        (st.loops i).backend.iters ++ List.replicate k true ∧
      flagAfter (st.loops i) k = true ∧
      (∀ m, m < k → flagAfter (st.loops i) m = false) ∧
      (st2.loops i).terminated = true := by
  unfold MainLoop.run with_current_loop at h
  rcases Bool.eq_false_or_eq_true (st.loops i).terminated with ht | ht
  · rw [if_pos ht] at h
    simp only [Option.some.injEq, Prod.mk.injEq] at h
    obtain ⟨h1, -⟩ := h
    subst h1
    refine ⟨0, by simp, ?_, ?_, ht⟩
    · simpa [flagAfter] using ht
    · intro m hm; exact absurd hm (Nat.not_lt_zero m)
  · rw [if_neg (by simp [ht])] at h
    cases hr : st.current_loop with
    | some j => rw [hr] at h; simp at h
    | none =>
      rw [hr] at h
      cases hb : runBody fuel (st.loops i) with
      | none => rw [hb] at h; simp at h
      | some r =>
        obtain ⟨ml2, p⟩ := r
        rw [hb] at h
        simp only [Option.map_some', Option.some.injEq, Prod.mk.injEq] at h
        obtain ⟨h1, h2⟩ := h
        subst h2
        obtain ⟨k, hiters, hflag, hmin, hterm2⟩ :=
          runBody_spec fuel (st.loops i) ml2 hb
        refine ⟨k, ?_, hflag, hmin, ?_⟩
        · rw [← h1]; simpa [updateLoop] using hiters
        · rw [← h1]; simpa [updateLoop] using hterm2

/-- The demo thread after loop 0 ran to termination. -/
def demoThreadDone : Thread Unit :=
  { loops := updateLoop demoThread.loops 0 demoLoopDone, current_loop := none }

/-- Witness for C5: the demo loop exits after exactly one blocking
iteration, the first whose callbacks request termination. -/
theorem C5_run_blocks_until_flag_witness :
    ∃ k, (demoThreadDone.loops 0).backend.iters =
        (demoThread.loops 0).backend.iters ++ List.replicate k true ∧
      flagAfter (demoThread.loops 0) k = true ∧
      (∀ m, m < k → flagAfter (demoThread.loops 0) m = false) ∧
      (demoThreadDone.loops 0).terminated = true :=
  C5_run_blocks_until_flag 0 2 demoThread demoThreadDone rfl

/-- C6: `run_one` on a non-terminated loop (with a free registry, so the
call is admissible) performs exactly one backend iteration, non-blocking,
and returns control in every case: whether or not the callbacks of that
iteration set the termination flag (the resulting flag is exactly the quit
request of that single iteration), the call returns with the registry
cleared. -/
theorem C6_run_one_single_nonblocking {W : Type} (i : Nat) (st : Thread W)
    (hterm : (st.loops i).terminated = false)
    (hreg : st.current_loop = none) :
    ∃ st2 p, MainLoop.run_one i st = some (st2, p) ∧
      (st2.loops i).backend.iters =
        (st.loops i).backend.iters ++ [false] ∧
      (st2.loops i).terminated =
        (st.loops i).backend.oracle.iterQuits
          (st.loops i).backend.iters.length ∧
      st2.current_loop = none := by
  refine ⟨{ loops := updateLoop st.loops i (backendIter false (st.loops i)).1,
            current_loop := none },
          (backendIter false (st.loops i)).2, ?_, ?_, ?_, rfl⟩
  · simp [MainLoop.run_one, with_current_loop, hterm, hreg, run_one_body]
  · simp [updateLoop, backendIter]
  · simp [updateLoop, backendIter, hterm]

/-- Witness for C6 at a concrete thread whose sole iteration quits. -/
theorem C6_run_one_single_nonblocking_witness :
    ∃ st2 p, MainLoop.run_one 0 demoThread = some (st2, p) ∧
      (st2.loops 0).backend.iters =
        (demoThread.loops 0).backend.iters ++ [false] ∧
      (st2.loops 0).terminated =
        (demoThread.loops 0).backend.oracle.iterQuits
          (demoThread.loops 0).backend.iters.length ∧
      st2.current_loop = none :=
  C6_run_one_single_nonblocking 0 demoThread rfl rfl

end ThinMainLoop
